import Mathlib

/-! Verification of the deception and consistency engine of a murder-mystery
interrogation game.  The Lean definitions below are a shallow embedding of the
Python sources (`models.py`, `knowledge_base.py`, `lie_model.py`,
`response_planner.py`, `game_engine.py`): timestamps (`datetime`) are modelled
as integer minutes, `timedelta(minutes=30)` as `30`, `timedelta(hours=24)` as
`1440`; floating-point scores are modelled as rationals; Python `dict`s that
are only iterated in insertion order are modelled as lists; the hidden global
random stream and the trained classifier output are modelled as explicit
oracle parameters.
-/

namespace Cluedo

/-- Truth status of a claim (`models.TruthStatus`). -/
inductive TruthStatus where
  | TRUE
  | LIE
  | OMISSION
  | EVASION
deriving DecidableEq, Repr

/-- An atomic proposition (`models.Fact`); the uuid `id` field is omitted
(it is never compared by the engine's logic), times are minutes. -/
structure Fact where
  subject : String
  predicate : String
  object : String
  time : Option Int
  certainty : ℚ
deriving DecidableEq, Repr

/-- A timeline entry (`models.Event`). -/
structure Event where
  id : String
  time : Int
  actor : String
  action : String
  location : String
  objects : List String
  is_crime : Bool
deriving DecidableEq, Repr

/-- Ground truth of the crime (`models.Murder`). -/
structure Murder where
  murderer : String
  time : Int
  location : String
  weapon : String
  motive : String
deriving DecidableEq, Repr

/-- A location with its adjacency set (`models.Location`). -/
structure Location where
  id : String
  connected_locations : List String
deriving DecidableEq, Repr

/-- A weapon (`models.Weapon`). -/
structure Weapon where
  id : String
  is_murder_weapon : Bool
deriving DecidableEq, Repr

/-- The parts of `models.Case` consumed by the engine under verification. -/
structure CaseData where
  timeline : List Event
  murder : Murder
  weapons : List String
  location_objects : List Location
  weapon_objects : List Weapon
  truth_matrix : List Fact
deriving DecidableEq, Repr

/-- A recorded statement (`models.Claim`); claim ids are plain strings. -/
structure Claim where
  id : String
  speaker : String
  proposition : Fact
  time_of_claim : Int
  truth_status : TruthStatus
  confidence : ℚ
  justification : String
  contradictions : List String
  corroborations : List String
deriving DecidableEq, Repr

/-- A planned answer before surface realization (`models.PlannedAnswer`);
the free-form `context` dictionary is omitted (never inspected afterwards). -/
structure PlannedAnswer where
  fact : Option Fact
  mode : TruthStatus
  confidence : ℚ
deriving DecidableEq, Repr

/-- Query parameters (`params` dictionary of `knowledge_base.query`). -/
structure QueryParams where
  time : Option Int
  location : Option String
deriving DecidableEq, Repr

/-! Section: knowledge_base: queries -/

/-- Whether a fact is a candidate of the nearest-in-time search for a given
predicate and person (the membership test of the loops in
`KnowledgeBase._query_location` / `_query_action`). -/
def nearestCandidate (predName person : String) (f : Fact) : Prop :=
  f.subject = person ∧ f.predicate = predName ∧ f.time ≠ none

instance (predName person : String) (f : Fact) :
    Decidable (nearestCandidate predName person f) := by
  unfold nearestCandidate; infer_instance

/-- One iteration of the closest-time loop shared verbatim by
`KnowledgeBase._query_location` and `KnowledgeBase._query_action`
(knowledge_base.py lines 115-123 and 159-167): the accumulator carries the
closest fact so far and the current minimal time difference. -/
def nearestStep (predName person : String) (t : Int)
    (st : Option Fact × Int) (f : Fact) : Option Fact × Int :=
  if f.subject = person ∧ f.predicate = predName then
    match f.time with
    | some tf => if |tf - t| < st.2 then (some f, |tf - t|) else st
    | none => st
  else st

/-- The closest-time search shared by `_query_location` and `_query_action`:
`min_time_diff` starts at `timedelta(hours=24)` = 1440 minutes. -/
def queryNearest (predName : String) (facts : List Fact) (person : String)
    (time : Option Int) : Option Fact :=
  match time with
  | none => none
  | some t => (facts.foldl (nearestStep predName person t) (none, 1440)).1

/-- Embedding of `KnowledgeBase._query_location` (knowledge_base.py lines 106-125). -/
def queryLocation (facts : List Fact) (person : String) (time : Option Int) :
    Option Fact :=
  queryNearest "was_at" facts person time

/-- Embedding of `KnowledgeBase._query_action` (knowledge_base.py lines 150-169). -/
def queryAction (facts : List Fact) (person : String) (time : Option Int) :
    Option Fact :=
  queryNearest "did" facts person time

/-- Embedding of `KnowledgeBase._query_witnesses` (knowledge_base.py lines 127-148): the
first other subject with a `"was_at"` fact at the location within 30 minutes
yields a synthesized `"saw"` fact of certainty 0.8. -/
def queryWitnesses (facts : List Fact) (person : String) (time : Option Int)
    (location : Option String) : Option Fact :=
  match time, location with
  | some t, some loc =>
    (facts.find? (fun f =>
      f.predicate == "was_at" && f.object == loc &&
        (match f.time with
         | some tf => decide (|tf - t| < 30)
         | none => false) && f.subject != person)).map
      (fun f => { subject := f.subject, predicate := "saw", object := person,
                  time := some t, certainty := 8/10 })
  | _, _ => none

/-- Embedding of `KnowledgeBase._query_weapon` (knowledge_base.py lines 171-187): an
`"interacted_with"` fact within one hour whose object is a known weapon id. -/
def queryWeapon (caseD : CaseData) (facts : List Fact) (person : String)
    (time : Option Int) : Option Fact :=
  match time with
  | none => none
  | some t =>
    facts.find? (fun f =>
      f.subject == person && f.predicate == "interacted_with" &&
        (match f.time with
         | some tf => decide (|tf - t| < 60)
         | none => false) &&
        caseD.weapons.any (fun w => w == f.object))

/-- Embedding of `KnowledgeBase._query_alibi` (knowledge_base.py lines 189-205). -/
def queryAlibi (facts : List Fact) (person : String) (time : Option Int)
    (location : Option String) : Option Fact :=
  match time, location with
  | some t, some loc =>
    match queryLocation facts person (some t) with
    | some pl =>
      if pl.object ≠ loc then
        some { subject := person, predicate := "has_alibi",
               object := "was_at_" ++ pl.object ++ "_not_" ++ loc,
               time := some t, certainty := 1 }
      else none
    | none => none
  | _, _ => none

/-- Embedding of `KnowledgeBase.query` (knowledge_base.py lines 80-104): dispatch on the
question type; unknown types log a warning and return `None`. -/
def kbQuery (caseD : CaseData) (facts : List Fact) (person : String)
    (questionType : String) (params : QueryParams) : Option Fact :=
  if questionType = "where_were_you" then
    queryLocation facts person params.time
  else if questionType = "who_saw_you" then
    queryWitnesses facts person params.time params.location
  else if questionType = "what_did_you_do" then
    queryAction facts person params.time
  else if questionType = "what_weapon" then
    queryWeapon caseD facts person params.time
  else if questionType = "alibi_check" then
    queryAlibi facts person params.time params.location
  else none

/-! Section: knowledge_base: consistency checking -/

/-- The violation string of the temporal-exclusivity rule
(knowledge_base.py lines 225-228). -/
def temporalViolationMsg (newFact oldFact : Fact) : String :=
  "Temporal inconsistency: " ++
    (newFact.subject ++ " cannot be at " ++ newFact.object ++ " and " ++
      oldFact.object ++ " at the same time")

/-- The violation string of the causality rule
(knowledge_base.py lines 243-246). -/
def causalityViolationMsg (newFact : Fact) (crimeLocation : String) : String :=
  "Causality violation: " ++
    (newFact.subject ++ " used weapon but was not at crime scene " ++
      crimeLocation)

/-- The temporal-exclusivity block of `KnowledgeBase.check_consistency`
(knowledge_base.py lines 216-228). -/
def temporalViolations (facts : List Fact) (newFact : Fact) : List String :=
  match newFact.time with
  | some tn =>
    if newFact.predicate = "was_at" then
      facts.filterMap (fun f =>
        match f.time with
        | some tf =>
          if f.subject = newFact.subject ∧ f.predicate = "was_at" ∧
              f.object ≠ newFact.object ∧ |tf - tn| < 30 then
            some (temporalViolationMsg newFact f)
          else none
        | none => none)
    else []
  | none => []

/-- The murderer-uniqueness block of `KnowledgeBase.check_consistency`
(knowledge_base.py lines 230-235). -/
def uniquenessViolations (facts : List Fact) (newFact : Fact) : List String :=
  if newFact.predicate = "is_murderer" then
    if 0 < (facts.filter (fun f =>
        f.predicate == "is_murderer" && f.object == "true")).length then
      ["Uniqueness violation: Only one murderer allowed"]
    else []
  else []

/-- The weapon-use causality block of `KnowledgeBase.check_consistency`
(knowledge_base.py lines 237-246). -/
def causalityViolations (caseD : CaseData) (facts : List Fact)
    (newFact : Fact) : List String :=
  match newFact.time with
  | some tn =>
    if newFact.predicate = "used_weapon" then
      match queryLocation facts newFact.subject (some tn) with
      | some lf =>
        if lf.object ≠ caseD.murder.location then
          [causalityViolationMsg newFact caseD.murder.location]
        else []
      | none => [causalityViolationMsg newFact caseD.murder.location]
    else []
  | none => []

/-- Embedding of `KnowledgeBase.check_consistency` (knowledge_base.py lines 207-248):
temporal exclusivity, murderer uniqueness and weapon-use causality, each
contributing human-readable violation strings; the boolean result is
`len(violations) == 0`. -/
def checkConsistency (caseD : CaseData) (facts : List Fact) (newFact : Fact) :
    Bool × List String :=
  let violations := temporalViolations facts newFact ++
    uniquenessViolations facts newFact ++
    causalityViolations caseD facts newFact
  (violations.isEmpty, violations)

/-! Section: knowledge_base: construction-time validation -/

/-- Two timeline events put the same actor in two different places within
30 minutes (the condition of knowledge_base.py lines 288-290). -/
def timelineConflict (e1 e2 : Event) : Prop :=
  e1.actor = e2.actor ∧ e1.location ≠ e2.location ∧ |e1.time - e2.time| < 30

instance (e1 e2 : Event) : Decidable (timelineConflict e1 e2) := by
  unfold timelineConflict; infer_instance

/-- The violation string of a timeline conflict
(knowledge_base.py lines 291-294). -/
def timelineViolationMsg (e1 e2 : Event) : String :=
  "Timeline violation: " ++
    (e1.actor ++ " cannot be at " ++ e1.location ++ " and " ++ e2.location ++
      " simultaneously")

/-- The nested pair loop of `KnowledgeBase._validate_constraints`
(knowledge_base.py lines 286-294): each event is compared against every
later event. -/
def pairViolations : List Event → List String
  | [] => []
  | e :: es =>
    es.filterMap (fun e2 =>
      if timelineConflict e e2 then some (timelineViolationMsg e e2) else none)
      ++ pairViolations es

/-- The murder-event checks of `KnowledgeBase._validate_constraints`
(knowledge_base.py lines 296-309): only the first `is_crime` event is
compared against the Murder record. -/
def murderViolations (caseD : CaseData) : List String :=
  match caseD.timeline.find? (fun e => e.is_crime) with
  | none => []
  | some e =>
    (if e.actor ≠ caseD.murder.murderer then
      ["Murder event actor doesn't match murderer"] else []) ++
    (if e.location ≠ caseD.murder.location then
      ["Murder event location doesn't match murder location"] else []) ++
    (if e.time ≠ caseD.murder.time then
      ["Murder event time doesn't match murder time"] else [])

/-- Embedding of `KnowledgeBase._validate_constraints` (knowledge_base.py lines 281-312):
the collected violation list (a nonempty list raises `ConstraintViolation`). -/
def validateConstraints (caseD : CaseData) : List String :=
  pairViolations caseD.timeline ++ murderViolations caseD

/-- Embedding of `KnowledgeBase._build_derived_facts` (knowledge_base.py lines 36-68):
each event expands to a `"was_at"` fact, a `"did"` fact and one
`"interacted_with"` fact per object. -/
def buildDerivedFacts (timeline : List Event) : List Fact :=
  timeline.flatMap (fun e =>
    [{ subject := e.actor, predicate := "was_at", object := e.location,
       time := some e.time, certainty := 1 },
     { subject := e.actor, predicate := "did", object := e.action,
       time := some e.time, certainty := 1 }] ++
    e.objects.map (fun obj =>
      { subject := e.actor, predicate := "interacted_with", object := obj,
        time := some e.time, certainty := 1 }))

/-- Embedding of `KnowledgeBase.__init__` (knowledge_base.py lines 25-34): copy the truth
matrix, add the derived facts, then validate; a constraint violation raises,
modelled as `Except.error` with the exception's message. -/
def kbInit (caseD : CaseData) : Except String (List Fact) :=
  let facts := caseD.truth_matrix ++ buildDerivedFacts caseD.timeline
  let violations := validateConstraints caseD
  if violations.isEmpty then Except.ok facts
  else Except.error
    ("Case setup violates constraints: " ++ String.intercalate "; " violations)

/-! Section: game_engine.make_accusation -/

/-- The `is_correct` computation of `GameEngine.make_accusation`
(game_engine.py lines 180-184): exact equality against the Murder record's
three fields. -/
def makeAccusationCorrect (m : Murder) (accusedSuspect weapon location : String) : Bool :=
  accusedSuspect == m.murderer && weapon == m.weapon && location == m.location

/-! Section: lie_model.decide : mode probabilities -/

/-- The probability computation of `LieModel.decide` (lie_model.py lines
90-99): the raw truth/lie/evasion masses followed by the `total > 0`
normalization.  `lb` is the speaker's `lying_bias`, `threat` the computed
threat level and `p` the classifier's lie likelihood. -/
def decideProbs (lb threat p : ℚ) : ℚ × ℚ × ℚ :=
  let truthProb := (1 - lb) * (1 - threat) * (1 - p)
  let lieProb := lb * threat * p
  let evasionProb := 1 - truthProb - lieProb
  let total := truthProb + lieProb + evasionProb
  if 0 < total then (truthProb / total, lieProb / total, evasionProb / total)
  else (truthProb, lieProb, evasionProb)

/-- The mode selection of `LieModel.decide` (lie_model.py lines 101-111):
a single uniform draw `rand` against the cumulative distribution, together
with the score of the chosen mode. -/
def decideModeScore (lb threat p rand : ℚ) : TruthStatus × ℚ :=
  let probs := decideProbs lb threat p
  if rand < probs.1 then (TruthStatus.TRUE, probs.1)
  else if rand < probs.1 + probs.2.1 then (TruthStatus.LIE, probs.2.1)
  else (TruthStatus.EVASION, probs.2.2)

/-! Section: lie_model: threat level and alternative-fact samplers -/

/-- Embedding of `LieModel._calculate_threat_level` (lie_model.py lines 271-306): time
proximity to the murder, crime-scene location, a per-question-type table
(default 0.5), a 1.5x multiplier for the murderer, clamped to at most 1.
A present-but-empty location string is falsy in Python and contributes
nothing. -/
def calcThreatLevel (m : Murder) (speaker questionType : String)
    (params : QueryParams) : ℚ :=
  let timePart : ℚ :=
    match params.time with
    | some t =>
      if |t - m.time| < 60 then 8/10
      else if |t - m.time| < 120 then 5/10
      else if |t - m.time| < 180 then 2/10
      else 0
    | none => 0
  let locationPart : ℚ :=
    match params.location with
    | some loc => if loc ≠ "" ∧ loc = m.location then 9/10 else 0
    | none => 0
  let questionPart : ℚ :=
    if questionType = "where_were_you" then 7/10
    else if questionType = "who_saw_you" then 6/10
    else if questionType = "what_did_you_do" then 8/10
    else if questionType = "what_weapon" then 9/10
    else if questionType = "alibi_check" then 8/10
    else if questionType = "small_talk" then 1/10
    else 5/10
  let score := timePart + locationPart + questionPart
  let score := if speaker = m.murderer then score * (3/2) else score
  min score 1

/-- Embedding of `KnowledgeBase.get_facts_about` (knowledge_base.py lines 314-321). -/
def getFactsAbout (facts : List Fact) (subject : String)
    (predName : Option String) : List Fact :=
  facts.filter (fun f =>
    f.subject == subject &&
      (match predName with
       | none => true
       | some p => f.predicate == p))

/-- Embedding of `LieModel._score_location_plausibility` (lie_model.py lines 364-388):
base 0.5, +0.3 for a prior visit, +0.2 for adjacency to a visited location,
-0.5 for the crime scene when the speaker is not the murderer, clamped to
`[0,1]`.  The unused `time` parameter of the source is omitted. -/
def scoreLocationPlausibility (caseD : CaseData) (facts : List Fact)
    (speakerId locationId : String) : ℚ :=
  let locationFacts := getFactsAbout facts speakerId (some "was_at")
  let score : ℚ := 1/2
  let score :=
    if locationFacts.any (fun f => f.object == locationId) then score + 3/10
    else score
  let personLocations := locationFacts.map (fun f => f.object)
  let score :=
    match caseD.location_objects.find? (fun loc => loc.id == locationId) with
    | some loc =>
      if loc.connected_locations.any (fun cl => personLocations.contains cl)
      then score + 2/10 else score
    | none => score
  let score :=
    if locationId = caseD.murder.location ∧ speakerId ≠ caseD.murder.murderer
    then score - 1/2 else score
  max 0 (min 1 score)

/-- Embedding of `LieModel._score_action_plausibility` (lie_model.py lines 390-408):
base 0.5, +0.3 for a previously performed action, time-of-day penalties,
clamped to `[0,1]`.  `datetime.hour` is modelled for nonnegative minute
timestamps as `(t / 60) % 24`. -/
def scoreActionPlausibility (facts : List Fact) (speakerId action : String)
    (t : Int) : ℚ :=
  let actionFacts := getFactsAbout facts speakerId (some "did")
  let score : ℚ := 1/2
  let score :=
    if actionFacts.any (fun f => f.object == action) then score + 3/10
    else score
  let hour := (t / 60) % 24
  let score :=
    if action = "sleeping" ∧ 6 ≤ hour ∧ hour ≤ 22 then score - 3/10
    else if action = "cooking" ∧ (hour < 6 ∨ 22 < hour) then score - 2/10
    else score
  max 0 (min 1 score)

/-- Embedding of `LieModel._sample_alternative_location` (lie_model.py lines 147-185):
all locations minus the true one (when the truth is a `"was_at"` fact),
scored, stably sorted descending, top 3 kept, one drawn by the softmax
sampler.  The `np.random.choice` draw is modelled by the oracle index
`draw`, reduced into the candidate range. -/
def sampleAlternativeLocation (caseD : CaseData) (facts : List Fact)
    (speakerId : String) (time : Option Int) (truthFact : Option Fact)
    (draw : ℕ) : Option Fact :=
  match time with
  | none => none
  | some t =>
    let availableLocations := caseD.location_objects.map (fun loc => loc.id)
    let availableLocations :=
      match truthFact with
      | some tf =>
        if tf.predicate = "was_at" then
          availableLocations.filter (fun loc => loc ≠ tf.object)
        else availableLocations
      | none => availableLocations
    let locationScores := availableLocations.map
      (fun loc => (loc, scoreLocationPlausibility caseD facts speakerId loc))
    let sorted := locationScores.mergeSort
      (fun a b => decide (b.2 ≤ a.2))
    let topCandidates := sorted.take 3
    match topCandidates with
    | [] => none
    | h :: tl =>
      let chosen := ((h :: tl).getD (draw % (h :: tl).length) h).1
      some { subject := speakerId, predicate := "was_at", object := chosen,
             time := some t, certainty := 7/10 }

/-- The fixed innocent-action pool of `LieModel._sample_alternative_action`
(lie_model.py lines 193-196). -/
def innocentActions : List String :=
  ["reading", "cooking", "cleaning", "sleeping", "watching_tv",
   "working", "exercising", "gardening", "shopping", "visiting_friend"]

/-- Embedding of `LieModel._sample_alternative_action` (lie_model.py lines 187-227). -/
def sampleAlternativeAction (facts : List Fact) (speakerId : String)
    (time : Option Int) (truthFact : Option Fact) (draw : ℕ) : Option Fact :=
  match time with
  | none => none
  | some t =>
    let actions :=
      match truthFact with
      | some tf =>
        if tf.predicate = "did" then
          innocentActions.filter (fun a => a ≠ tf.object)
        else innocentActions
      | none => innocentActions
    let actionScores := actions.map
      (fun a => (a, scoreActionPlausibility facts speakerId a t))
    let sorted := actionScores.mergeSort (fun a b => decide (b.2 ≤ a.2))
    let topCandidates := sorted.take 3
    match topCandidates with
    | [] => none
    | h :: tl =>
      let chosen := ((h :: tl).getD (draw % (h :: tl).length) h).1
      some { subject := speakerId, predicate := "did", object := chosen,
             time := some t, certainty := 7/10 }

/-- Embedding of `LieModel._sample_alternative_weapon` (lie_model.py lines 229-253):
non-murder weapons minus the true one, uniform pick (`random.choice`
modelled by the oracle index `draw`). -/
def sampleAlternativeWeapon (caseD : CaseData) (speakerId : String)
    (time : Option Int) (truthFact : Option Fact) (draw : ℕ) : Option Fact :=
  match time with
  | none => none
  | some t =>
    let innocentWeapons :=
      (caseD.weapon_objects.filter (fun w => !w.is_murder_weapon)).map
        (fun w => w.id)
    let innocentWeapons :=
      match truthFact with
      | some tf =>
        if tf.predicate = "interacted_with" then
          innocentWeapons.filter (fun w => w ≠ tf.object)
        else innocentWeapons
      | none => innocentWeapons
    match innocentWeapons with
    | [] => none
    | h :: tl =>
      let chosen := (h :: tl).getD (draw % (h :: tl).length) h
      some { subject := speakerId, predicate := "interacted_with",
             object := chosen, time := some t, certainty := 6/10 }

/-- Embedding of `LieModel.sample_alternative` (lie_model.py lines 123-145): dispatch by
question type; unknown types yield no alternative. -/
def sampleAlternative (caseD : CaseData) (facts : List Fact)
    (speakerId questionType : String) (params : QueryParams)
    (truthFact : Option Fact) (draw : ℕ) : Option Fact :=
  if questionType = "where_were_you" then
    sampleAlternativeLocation caseD facts speakerId params.time truthFact draw
  else if questionType = "what_did_you_do" then
    sampleAlternativeAction facts speakerId params.time truthFact draw
  else if questionType = "what_weapon" then
    sampleAlternativeWeapon caseD speakerId params.time truthFact draw
  else none

/-! Section: response_planner -/

/-- Embedding of `ResponsePlanner._plan_truthful_response` (response_planner.py lines
82-101); the contradiction lookup on the truthful fact is computed but
discarded by the source, so it is omitted here. -/
def planTruthfulResponse (truthFact : Option Fact) : PlannedAnswer :=
  match truthFact with
  | none => { fact := none, mode := TruthStatus.TRUE, confidence := 1 }
  | some f =>
    { fact := some f, mode := TruthStatus.TRUE, confidence := f.certainty }

/-- Embedding of `ResponsePlanner._plan_evasion_response` (response_planner.py lines
135-151); `datetime.now()` is the explicit parameter `now`. -/
def planEvasionResponse (speaker : String) (now : Int) : PlannedAnswer :=
  { fact := some { subject := speaker, predicate := "evades",
                   object := "question", time := some now, certainty := 8/10 },
    mode := TruthStatus.EVASION, confidence := 8/10 }

/-- Embedding of `ResponsePlanner._plan_omission_response` (response_planner.py lines
153-169). -/
def planOmissionResponse (speaker : String) (now : Int) : PlannedAnswer :=
  { fact := some { subject := speaker, predicate := "omits",
                   object := "information", time := some now,
                   certainty := 7/10 },
    mode := TruthStatus.OMISSION, confidence := 7/10 }

/-- One iteration of the bounded retry loop in
`ResponsePlanner._plan_lie_response` (response_planner.py lines 117-122):
once a consistent alternative is found the loop breaks (the flag freezes
the state); a failed sample overwrites the fact with `None` but keeps the
last consistency verdict. -/
def lieRetryStep (caseD : CaseData) (facts : List Fact)
    (samples : ℕ → Option Fact) (st : Option Fact × Bool) (i : ℕ) :
    Option Fact × Bool :=
  if st.2 then st
  else
    match samples (i + 1) with
    | some f => (some f, (checkConsistency caseD facts f).1)
    | none => (none, st.2)

/-- The full retry loop `for _ in range(3)` of `_plan_lie_response`,
entered with the initial (inconsistent) alternative. -/
def lieRetry (caseD : CaseData) (facts : List Fact)
    (samples : ℕ → Option Fact) (f0 : Fact) : Option Fact × Bool :=
  (List.range 3).foldl (lieRetryStep caseD facts samples) (some f0, false)

/-- Embedding of `ResponsePlanner._plan_lie_response` (response_planner.py lines
103-133), generic in the sampler: `samples i` is the result of the `i`-th
call to `LieModel.sample_alternative` within this turn.  Accessing
`alternative_fact.certainty` when the fact is `None` would raise in Python;
that (unreachable) path is modelled as `Except.error`. -/
def planLieResponse (caseD : CaseData) (facts : List Fact) (speaker : String)
    (samples : ℕ → Option Fact) (now : Int) : Except String PlannedAnswer :=
  match samples 0 with
  | none => Except.ok (planEvasionResponse speaker now)
  | some f0 =>
    if (checkConsistency caseD facts f0).1 then
      Except.ok { fact := some f0, mode := TruthStatus.LIE,
                  confidence := f0.certainty }
    else
      let st := lieRetry caseD facts samples f0
      if st.2 then
        match st.1 with
        | some f =>
          Except.ok { fact := some f, mode := TruthStatus.LIE,
                      confidence := f.certainty }
        | none => Except.error "AttributeError: NoneType has no certainty"
      else Except.ok (planEvasionResponse speaker now)

/-- Embedding of `ResponsePlanner.plan_response` (response_planner.py lines 37-80):
truth lookup, deception decision, mode-directed planning, then the decision
score overwrites the planned confidence.  `lb` is the speaker's
`lying_bias`, `p` the classifier's lie likelihood, `rand` the uniform draw
of `decide`, and `draws i` the randomness of the `i`-th sampler call. -/
def planResponse (caseD : CaseData) (facts : List Fact) (speaker : String)
    (lb : ℚ) (intent : String) (params : QueryParams) (p rand : ℚ)
    (draws : ℕ → ℕ) (now : Int) : Except String PlannedAnswer :=
  let truthFact := kbQuery caseD facts speaker intent params
  let threat := calcThreatLevel caseD.murder speaker intent params
  let ms := decideModeScore lb threat p rand
  let planned : Except String PlannedAnswer :=
    match ms.1 with
    | TruthStatus.TRUE => Except.ok (planTruthfulResponse truthFact)
    | TruthStatus.LIE =>
      planLieResponse caseD facts speaker
        (fun i => sampleAlternative caseD facts speaker intent params
          truthFact (draws i)) now
    | TruthStatus.EVASION => Except.ok (planEvasionResponse speaker now)
    | TruthStatus.OMISSION => Except.ok (planOmissionResponse speaker now)
  planned.map (fun pa => { pa with confidence := ms.2 })

/-- Embedding of `ResponsePlanner._claims_contradict` (response_planner.py lines
227-246): same subject/predicate/time with different objects, or two
`"was_at"` facts for the same subject with different objects within 30
minutes. -/
def claimsContradict (f1 f2 : Fact) : Bool :=
  (f1.subject == f2.subject && f1.predicate == f2.predicate &&
    f1.time == f2.time && f1.object != f2.object) ||
  (f1.subject == f2.subject && f1.predicate == "was_at" &&
    f2.predicate == "was_at" &&
    (match f1.time, f2.time with
     | some t1, some t2 => decide (|t1 - t2| < 30)
     | _, _ => false) && f1.object != f2.object)

/-- Embedding of `ResponsePlanner._claims_corroborate` (response_planner.py lines
248-264): identical facts, or a `"saw"` fact matching a `"was_at"` fact. -/
def claimsCorroborate (f1 f2 : Fact) : Bool :=
  (f1.subject == f2.subject && f1.predicate == f2.predicate &&
    f1.object == f2.object && f1.time == f2.time) ||
  (f1.predicate == "saw" && f2.predicate == "was_at" &&
    f1.object == f2.subject && f1.time == f2.time)

/-- One iteration of the link-collection pass of
`ResponsePlanner._create_claim` (response_planner.py lines 197-203): an
existing claim of another speaker is classified as contradicting or (else)
corroborating. -/
def collectLinksStep (speaker : String) (factP : Fact)
    (acc : List String × List String) (c : Claim) :
    List String × List String :=
  if c.speaker ≠ speaker then
    if claimsContradict factP c.proposition then (acc.1 ++ [c.id], acc.2)
    else if claimsCorroborate factP c.proposition then
      (acc.1, acc.2 ++ [c.id])
    else acc
  else acc

/-- The link-collection pass of `ResponsePlanner._create_claim`
(response_planner.py lines 196-203). -/
def collectLinks (speaker : String) (factP : Fact) (existing : List Claim) :
    List String × List String :=
  existing.foldl (collectLinksStep speaker factP) ([], [])

/-- Embedding of `ResponsePlanner._create_justification` (response_planner.py lines
266-285). -/
def createJustification (mode : TruthStatus)
    (contradictions corroborations : List String) : String :=
  let parts :=
    match mode with
    | TruthStatus.TRUE => ["Truthful response based on knowledge"]
    | TruthStatus.LIE => ["Deceptive response to avoid incrimination"]
    | TruthStatus.EVASION => ["Evaded the question"]
    | TruthStatus.OMISSION => ["Omitted relevant information"]
  let parts :=
    if contradictions.isEmpty then parts
    else parts ++
      ["Contradicts " ++ toString contradictions.length ++ " previous claims"]
  let parts :=
    if corroborations.isEmpty then parts
    else parts ++
      ["Corroborated by " ++ toString corroborations.length ++
        " previous claims"]
  String.intercalate "; " parts

/-- Embedding of `ResponsePlanner._create_claim` (response_planner.py lines 190-225):
links are computed against the existing ledger only when the planned answer
carries a fact; the proposition falls back to a `"responded"` placeholder.
The fresh uuid and `datetime.now()` are the explicit parameters `newId` and
`now`. -/
def createClaim (existing : List Claim) (speaker : String)
    (pa : PlannedAnswer) (now : Int) (newId : String) : Claim :=
  let links :=
    match pa.fact with
    | some f => collectLinks speaker f existing
    | none => ([], [])
  let proposition :=
    match pa.fact with
    | some f => f
    | none =>
      { subject := speaker, predicate := "responded", object := "to_question",
        time := some now, certainty := pa.confidence }
  { id := newId, speaker := speaker, proposition := proposition,
    time_of_claim := now, truth_status := pa.mode,
    confidence := pa.confidence,
    justification := createJustification pa.mode links.1 links.2,
    contradictions := links.1, corroborations := links.2 }

/-- The claim-insertion step of `GameEngine.interrogate_suspect`
(game_engine.py lines 116-118): the new claim is appended to the ledger
(`self.current_case.claims[claim.id] = claim` on a fresh uuid key). -/
def appendClaim (ledger : List Claim) (c : Claim) : List Claim :=
  ledger ++ [c]

/-! Section: C1: accusation correctness -/

/-- C1.  `make_accusation` returns `is_correct = true` exactly when the
accused suspect, weapon and location all equal the Murder record's fields,
and changing any single one of the three (keeping the other two correct)
flips the result to `false`. -/
theorem make_accusation_exact_match (m : Murder) (s w l : String) :
    (makeAccusationCorrect m s w l = true ↔
      s = m.murderer ∧ w = m.weapon ∧ l = m.location) ∧
    (s ≠ m.murderer → makeAccusationCorrect m s m.weapon m.location = false) ∧
    (w ≠ m.weapon → makeAccusationCorrect m m.murderer w m.location = false) ∧
    (l ≠ m.location → makeAccusationCorrect m m.murderer m.weapon l = false) := by
  refine ⟨?_, ?_, ?_, ?_⟩ <;>
    simp [makeAccusationCorrect, Bool.and_eq_true, beq_iff_eq, and_assoc]

/-- Sample murder record used by concrete witnesses. -/
def murderW : Murder :=
  { murderer := "alice", time := 0, location := "study", weapon := "knife", motive := "greed" }

/-- Witness for C1 at a concrete input: the matching accusation is correct,
and changing only the suspect flips the result. -/
theorem make_accusation_exact_match_witness :
    makeAccusationCorrect murderW "alice" "knife" "study" = true ∧
    makeAccusationCorrect murderW "bob" "knife" "study" = false := by
  constructor
  · exact (make_accusation_exact_match murderW "alice" "knife" "study").1.mpr
      ⟨rfl, rfl, rfl⟩
  · exact (make_accusation_exact_match murderW "bob" "knife" "study").2.1
      (by decide)

/-! Section: C2: mode probabilities are a distribution -/

/-- C2.  For every `lying_bias`, threat level and classifier likelihood in
`[0,1]`, the three mode probabilities computed by `decide` are each
nonnegative and sum to 1. -/
theorem decide_probs_distribution (lb threat p : ℚ)
    (hlb0 : 0 ≤ lb) (hlb1 : lb ≤ 1) (ht0 : 0 ≤ threat) (ht1 : threat ≤ 1)
    (hp0 : 0 ≤ p) (hp1 : p ≤ 1) :
    0 ≤ (decideProbs lb threat p).1 ∧ 0 ≤ (decideProbs lb threat p).2.1 ∧
    0 ≤ (decideProbs lb threat p).2.2 ∧
    (decideProbs lb threat p).1 + (decideProbs lb threat p).2.1 +
      (decideProbs lb threat p).2.2 = 1 := by
  have htot : (1 - lb) * (1 - threat) * (1 - p) + lb * threat * p +
      (1 - (1 - lb) * (1 - threat) * (1 - p) - lb * threat * p) = 1 := by ring
  have htruth : 0 ≤ (1 - lb) * (1 - threat) * (1 - p) := by
    have := mul_nonneg (mul_nonneg (by linarith : (0:ℚ) ≤ 1 - lb)
      (by linarith : (0:ℚ) ≤ 1 - threat)) (by linarith : (0:ℚ) ≤ 1 - p)
    linarith
  have hlie : 0 ≤ lb * threat * p :=
    mul_nonneg (mul_nonneg hlb0 ht0) hp0
  have hev : 0 ≤ 1 - (1 - lb) * (1 - threat) * (1 - p) - lb * threat * p := by
    nlinarith [mul_nonneg (mul_nonneg hlb0 (by linarith : (0:ℚ) ≤ 1 - threat)) hp0,
      mul_nonneg (mul_nonneg (by linarith : (0:ℚ) ≤ 1 - lb) ht0)
        (by linarith : (0:ℚ) ≤ 1 - p),
      mul_nonneg (mul_nonneg hlb0 ht0) (by linarith : (0:ℚ) ≤ 1 - p),
      mul_nonneg (mul_nonneg (by linarith : (0:ℚ) ≤ 1 - lb)
        (by linarith : (0:ℚ) ≤ 1 - threat)) hp0]
  simp only [decideProbs, htot, if_pos (by norm_num : (0:ℚ) < 1), div_one]
  exact ⟨htruth, hlie, hev, by ring_nf⟩

/-- Witness for C2 at a concrete feature point. -/
theorem decide_probs_distribution_witness :
    0 ≤ (decideProbs (1/2) (1/2) (1/2)).1 ∧
    0 ≤ (decideProbs (1/2) (1/2) (1/2)).2.1 ∧
    0 ≤ (decideProbs (1/2) (1/2) (1/2)).2.2 ∧
    (decideProbs (1/2) (1/2) (1/2)).1 + (decideProbs (1/2) (1/2) (1/2)).2.1 +
      (decideProbs (1/2) (1/2) (1/2)).2.2 = 1 :=
  decide_probs_distribution (1/2) (1/2) (1/2) (by norm_num) (by norm_num)
    (by norm_num) (by norm_num) (by norm_num) (by norm_num)

/-! Section: C3: lie-planning retry and fallback -/

/-- Once the retry loop's state is consistent it carries a consistent
sampled fact, and every step preserves that. -/
lemma lieRetry_foldl_consistent (caseD : CaseData) (facts : List Fact)
    (samples : ℕ → Option Fact) (idxs : List ℕ) :
    ∀ st : Option Fact × Bool,
      (st.2 = true →
        ∃ f, st.1 = some f ∧ (checkConsistency caseD facts f).1 = true) →
      ((idxs.foldl (lieRetryStep caseD facts samples) st).2 = true →
        ∃ f, (idxs.foldl (lieRetryStep caseD facts samples) st).1 = some f ∧
          (checkConsistency caseD facts f).1 = true) := by
  induction idxs with
  | nil => intro st h; exact h
  | cons i idxs ih =>
    intro st h
    simp only [List.foldl_cons]
    apply ih
    unfold lieRetryStep
    cases hst : st.2 with
    | true => simpa [hst] using h
    | false =>
      cases hs : samples (i + 1) with
      | none => simp [hst]
      | some f =>
        simp only [hst, hs, Bool.false_eq_true, if_false]
        intro hc
        exact ⟨f, rfl, hc⟩

/-- If every retry sample is absent or inconsistent, the loop never reaches
a consistent state. -/
lemma lieRetry_foldl_allFail (caseD : CaseData) (facts : List Fact)
    (samples : ℕ → Option Fact) (idxs : List ℕ) :
    ∀ st : Option Fact × Bool, st.2 = false →
      (∀ i ∈ idxs, ∀ f, samples (i + 1) = some f →
        (checkConsistency caseD facts f).1 = false) →
      (idxs.foldl (lieRetryStep caseD facts samples) st).2 = false := by
  induction idxs with
  | nil => intro st h _; exact h
  | cons i idxs ih =>
    intro st h hall
    simp only [List.foldl_cons]
    apply ih
    · unfold lieRetryStep
      cases hs : samples (i + 1) with
      | none => simp [h, hs]
      | some f =>
        simp only [h, hs, Bool.false_eq_true, if_false]
        exact hall i (by simp) f hs
    · intro j hj f hf
      exact hall j (by simp [hj]) f hf

/-- C3.  `_plan_lie_response` never raises and never returns a malformed
answer: its result is always a well-formed planned answer that is either
the Evasion fallback or a Lie carrying a consistency-checked fact; and
whenever the initial sample and the up-to-3 retries all fail to produce a
consistent alternative, the turn is downgraded to Evasion. -/
theorem plan_lie_response_safe (caseD : CaseData) (facts : List Fact)
    (speaker : String) (samples : ℕ → Option Fact) (now : Int) :
    (∃ pa, planLieResponse caseD facts speaker samples now = Except.ok pa ∧
      (pa = planEvasionResponse speaker now ∨
        (pa.mode = TruthStatus.LIE ∧ ∃ f, pa.fact = some f ∧
          (checkConsistency caseD facts f).1 = true))) ∧
    ((∀ i, i ≤ 3 → ∀ f, samples i = some f →
        (checkConsistency caseD facts f).1 = false) →
      planLieResponse caseD facts speaker samples now =
        Except.ok (planEvasionResponse speaker now)) := by
  constructor
  · unfold planLieResponse
    cases h0 : samples 0 with
    | none => exact ⟨planEvasionResponse speaker now, rfl, Or.inl rfl⟩
    | some f0 =>
      by_cases hc : (checkConsistency caseD facts f0).1 = true
      · refine ⟨⟨some f0, TruthStatus.LIE, f0.certainty⟩, ?_,
          Or.inr ⟨rfl, f0, rfl, hc⟩⟩
        simp [hc]
      · simp only [hc, Bool.false_eq_true, if_false]
        have hinv := lieRetry_foldl_consistent caseD facts samples
          (List.range 3) (some f0, false) (by simp)
        cases hst : (lieRetry caseD facts samples f0).2 with
        | false => exact ⟨planEvasionResponse speaker now, by simp [hst], Or.inl rfl⟩
        | true =>
          obtain ⟨f, hf, hfc⟩ := hinv (by simpa [lieRetry] using hst)
          refine ⟨⟨some f, TruthStatus.LIE, f.certainty⟩, ?_,
            Or.inr ⟨rfl, f, rfl, hfc⟩⟩
          simp only [hst, if_true, lieRetry] at hf ⊢
          simp [hf]
  · intro hall
    unfold planLieResponse
    cases h0 : samples 0 with
    | none => rfl
    | some f0 =>
      have hc : (checkConsistency caseD facts f0).1 = false :=
        hall 0 (by norm_num) f0 h0
      simp only [hc, Bool.false_eq_true, if_false]
      have hst : (lieRetry caseD facts samples f0).2 = false := by
        apply lieRetry_foldl_allFail caseD facts samples (List.range 3)
          (some f0, false) rfl
        intro i hi f hf
        exact hall (i + 1) (by simp at hi; omega) f hf
      simp [hst]

/-- Witness for C3: with a sampler that never yields a candidate, the plan
is the Evasion fallback. -/
theorem plan_lie_response_safe_witness :
    planLieResponse
      { timeline := [], murder := murderW, weapons := [],
        location_objects := [], weapon_objects := [], truth_matrix := [] }
      [] "bob" (fun _ => none) 0 =
      Except.ok (planEvasionResponse "bob" 0) :=
  (plan_lie_response_safe _ [] "bob" (fun _ => none) 0).2
    (fun _ _ _ hf => Option.noConfusion hf)

/-! Section: C4/C10: nearest-in-time queries and the 24-hour window -/

/-- Invariant of the closest-time loop: either nothing has been retained
and every candidate seen so far is at least 24 hours away, or the retained
fact is a candidate among those seen, its delta is the running minimum,
below 24 hours, and minimal among all seen candidates. -/
def NearestInv (predName person : String) (t : Int) (seen : List Fact)
    (st : Option Fact × Int) : Prop :=
  (st = (none, 1440) ∧ ∀ g ∈ seen, g.subject = person →
    g.predicate = predName → ∀ tg, g.time = some tg → 1440 ≤ |tg - t|) ∨
  (∃ f tf, st.1 = some f ∧ st.2 = |tf - t| ∧ f ∈ seen ∧
    f.subject = person ∧ f.predicate = predName ∧ f.time = some tf ∧
    |tf - t| < 1440 ∧
    ∀ g ∈ seen, g.subject = person → g.predicate = predName →
      ∀ tg, g.time = some tg → |tf - t| ≤ |tg - t|)

lemma nearestStep_inv (predName person : String) (t : Int) (seen : List Fact)
    (st : Option Fact × Int) (f : Fact)
    (h : NearestInv predName person t seen st) :
    NearestInv predName person t (seen ++ [f])
      (nearestStep predName person t st f) := by
  unfold nearestStep
  by_cases hcand : f.subject = person ∧ f.predicate = predName
  · simp only [hcand, if_true]
    cases htime : f.time with
    | none =>
      rcases h with ⟨hst, hseen⟩ | ⟨g, tg, hg⟩
      · refine Or.inl ⟨hst, ?_⟩
        intro g hgmem hgs hgp tg hgt
        rcases List.mem_append.mp hgmem with hgmem | hgmem
        · exact hseen g hgmem hgs hgp tg hgt
        · rw [List.mem_singleton.mp hgmem] at hgt
          rw [htime] at hgt; cases hgt
      · refine Or.inr ⟨g, tg, hg.1, hg.2.1, List.mem_append_left _ hg.2.2.1,
          hg.2.2.2.1, hg.2.2.2.2.1, hg.2.2.2.2.2.1, hg.2.2.2.2.2.2.1, ?_⟩
        intro g' hgmem hgs hgp tg' hgt
        rcases List.mem_append.mp hgmem with hgmem | hgmem
        · exact hg.2.2.2.2.2.2.2 g' hgmem hgs hgp tg' hgt
        · rw [List.mem_singleton.mp hgmem] at hgt
          rw [htime] at hgt; cases hgt
    | some tf =>
      by_cases hlt : |tf - t| < st.2
      · simp only [hlt, if_true]
        have hbound : |tf - t| < 1440 := by
          rcases h with ⟨hst, _⟩ | ⟨g, tg, hg⟩
          · rw [hst] at hlt; exact hlt
          · calc |tf - t| < st.2 := hlt
              _ = |tg - t| := hg.2.1
              _ < 1440 := hg.2.2.2.2.2.2.1
        refine Or.inr ⟨f, tf, rfl, rfl, List.mem_append_right _ (by simp),
          hcand.1, hcand.2, htime, hbound, ?_⟩
        intro g hgmem hgs hgp tg hgt
        rcases List.mem_append.mp hgmem with hgmem | hgmem
        · rcases h with ⟨hst, hseen⟩ | ⟨g', tg', hg'⟩
          · have := hseen g hgmem hgs hgp tg hgt
            rw [hst] at hlt
            linarith
          · have := hg'.2.2.2.2.2.2.2 g hgmem hgs hgp tg hgt
            rw [hg'.2.1] at hlt
            linarith
        · rw [List.mem_singleton.mp hgmem] at hgt
          rw [htime] at hgt
          cases hgt
          exact le_refl _
      · simp only [hlt, if_false]
        rcases h with ⟨hst, hseen⟩ | ⟨g, tg, hg⟩
        · refine Or.inl ⟨hst, ?_⟩
          intro g hgmem hgs hgp tg hgt
          rcases List.mem_append.mp hgmem with hgmem | hgmem
          · exact hseen g hgmem hgs hgp tg hgt
          · rw [List.mem_singleton.mp hgmem] at hgt
            rw [htime] at hgt
            cases hgt
            rw [hst] at hlt
            simpa using le_of_not_lt hlt
        · refine Or.inr ⟨g, tg, hg.1, hg.2.1, List.mem_append_left _ hg.2.2.1,
            hg.2.2.2.1, hg.2.2.2.2.1, hg.2.2.2.2.2.1, hg.2.2.2.2.2.2.1, ?_⟩
          intro g' hgmem hgs hgp tg' hgt
          rcases List.mem_append.mp hgmem with hgmem | hgmem
          · exact hg.2.2.2.2.2.2.2 g' hgmem hgs hgp tg' hgt
          · rw [List.mem_singleton.mp hgmem] at hgt
            rw [htime] at hgt
            cases hgt
            rw [hg.2.1] at hlt
            exact le_of_not_lt hlt
  · simp only [hcand, if_false]
    rcases h with ⟨hst, hseen⟩ | ⟨g, tg, hg⟩
    · refine Or.inl ⟨hst, ?_⟩
      intro g hgmem hgs hgp tg hgt
      rcases List.mem_append.mp hgmem with hgmem | hgmem
      · exact hseen g hgmem hgs hgp tg hgt
      · rw [List.mem_singleton.mp hgmem] at hgs hgp
        exact absurd ⟨hgs, hgp⟩ hcand
    · refine Or.inr ⟨g, tg, hg.1, hg.2.1, List.mem_append_left _ hg.2.2.1,
        hg.2.2.2.1, hg.2.2.2.2.1, hg.2.2.2.2.2.1, hg.2.2.2.2.2.2.1, ?_⟩
      intro g' hgmem hgs hgp tg' hgt
      rcases List.mem_append.mp hgmem with hgmem | hgmem
      · exact hg.2.2.2.2.2.2.2 g' hgmem hgs hgp tg' hgt
      · rw [List.mem_singleton.mp hgmem] at hgs hgp
        exact absurd ⟨hgs, hgp⟩ hcand

lemma nearestFold_inv (predName person : String) (t : Int) :
    ∀ (l : List Fact) (seen : List Fact) (st : Option Fact × Int),
      NearestInv predName person t seen st →
      NearestInv predName person t (seen ++ l)
        (l.foldl (nearestStep predName person t) st) := by
  intro l
  induction l with
  | nil =>
    intro seen st h
    simp only [List.append_nil, List.foldl_nil]
    exact h
  | cons f l ih =>
    intro seen st h
    rw [List.foldl_cons, List.append_cons]
    exact ih (seen ++ [f]) (nearestStep predName person t st f)
      (nearestStep_inv predName person t seen st f h)

/-- The loop invariant instantiated at the full fact list. -/
lemma queryNearest_inv (predName : String) (facts : List Fact)
    (person : String) (t : Int) :
    NearestInv predName person t facts
      (facts.foldl (nearestStep predName person t) (none, 1440)) := by
  simpa using nearestFold_inv predName person t facts [] (none, 1440)
    (Or.inl ⟨rfl, by simp⟩)

lemma queryNearest_some_spec (predName : String) (facts : List Fact)
    (person : String) (t : Int) (f : Fact)
    (h : queryNearest predName facts person (some t) = some f) :
    f ∈ facts ∧ f.subject = person ∧ f.predicate = predName ∧
      ∃ tf, f.time = some tf ∧ |tf - t| < 1440 ∧
        ∀ g ∈ facts, g.subject = person → g.predicate = predName →
          ∀ tg, g.time = some tg → |tf - t| ≤ |tg - t| := by
  replace h : (facts.foldl (nearestStep predName person t) (none, 1440)).1 =
      some f := h
  rcases queryNearest_inv predName facts person t with ⟨hst, _⟩ | ⟨g, tg, hg⟩
  · rw [hst] at h
    cases h
  · rw [hg.1] at h
    cases h
    exact ⟨hg.2.2.1, hg.2.2.2.1, hg.2.2.2.2.1,
      tg, hg.2.2.2.2.2.1, hg.2.2.2.2.2.2.1, hg.2.2.2.2.2.2.2⟩

lemma queryNearest_none_iff (predName : String) (facts : List Fact)
    (person : String) (t : Int) :
    queryNearest predName facts person (some t) = none ↔
      ∀ g ∈ facts, g.subject = person → g.predicate = predName →
        ∀ tg, g.time = some tg → 1440 ≤ |tg - t| := by
  have hdef : queryNearest predName facts person (some t) =
      (facts.foldl (nearestStep predName person t) (none, 1440)).1 := rfl
  rw [hdef]
  constructor
  · intro h
    rcases queryNearest_inv predName facts person t with ⟨_, hseen⟩ | ⟨g, tg, hg⟩
    · exact hseen
    · rw [hg.1] at h
      cases h
  · intro hall
    rcases queryNearest_inv predName facts person t with ⟨hst, _⟩ | ⟨g, tg, hg⟩
    · rw [hst]
    · exact absurd (hall g hg.2.2.1 hg.2.2.2.1 hg.2.2.2.2.1 tg
        hg.2.2.2.2.2.1) (not_le.mpr hg.2.2.2.2.2.2.1)

/-- A timed `"was_at"` fact exactly 24 hours away from the query time. -/
def factFar : Fact :=
  { subject := "alice", predicate := "was_at", object := "kitchen",
    time := some 1440, certainty := 1 }

/-- Counterexample to C4: `_query_location` returns `none` for a person who
does have a timed `"was_at"` fact, because that fact lies 24 hours from the
queried time and the search window is initialized to 24 hours. -/
theorem query_location_none_despite_candidate :
    queryLocation [factFar] "alice" (some 0) = none ∧
    factFar ∈ [factFar] ∧ factFar.subject = "alice" ∧
    factFar.predicate = "was_at" ∧ factFar.time ≠ none := by
  refine ⟨?_, by simp, rfl, rfl, by simp [factFar]⟩
  decide

/-- C4 (amended).  `_query_location` returns a `"was_at"` fact of the person
whose time delta is minimal over all of the person's timed `"was_at"` facts
and lies strictly within 24 hours of the queried time; it returns `none`
exactly when the person has no timed `"was_at"` fact strictly within 24
hours. -/
theorem query_location_nearest_within_window (facts : List Fact)
    (person : String) (t : Int) :
    (∀ f, queryLocation facts person (some t) = some f →
      f ∈ facts ∧ f.subject = person ∧ f.predicate = "was_at" ∧
      ∃ tf, f.time = some tf ∧ |tf - t| < 1440 ∧
        ∀ g ∈ facts, g.subject = person → g.predicate = "was_at" →
          ∀ tg, g.time = some tg → |tf - t| ≤ |tg - t|) ∧
    (queryLocation facts person (some t) = none ↔
      ∀ g ∈ facts, g.subject = person → g.predicate = "was_at" →
        ∀ tg, g.time = some tg → 1440 ≤ |tg - t|) := by
  constructor
  · intro f h
    exact queryNearest_some_spec "was_at" facts person t f h
  · exact queryNearest_none_iff "was_at" facts person t

/-- A timed `"was_at"` fact 10 minutes away from the query time. -/
def factNear : Fact :=
  { subject := "alice", predicate := "was_at", object := "study",
    time := some 10, certainty := 1 }

/-- Witness for C4 (amended) at a concrete store. -/
theorem query_location_nearest_within_window_witness :
    factNear ∈ [factNear] ∧ factNear.subject = "alice" ∧
    factNear.predicate = "was_at" ∧
    ∃ tf, factNear.time = some tf ∧ |tf - (0:Int)| < 1440 ∧
      ∀ g ∈ [factNear], g.subject = "alice" → g.predicate = "was_at" →
        ∀ tg, g.time = some tg → |tf - (0:Int)| ≤ |tg - (0:Int)| :=
  (query_location_nearest_within_window [factNear] "alice" 0).1 factNear
    (by decide)

/-- C10.  The nearest-in-time searches of `_query_location` and
`_query_action` only ever return facts strictly within 24 hours of the
queried time, and whenever all of a person's matching facts are 24 hours or
more away the query returns `none` even though candidates exist. -/
theorem query_nearest_24h_window (facts : List Fact) (person : String)
    (t : Int) :
    (∀ f, queryLocation facts person (some t) = some f →
      ∃ tf, f.time = some tf ∧ |tf - t| < 1440) ∧
    ((∀ g ∈ facts, g.subject = person → g.predicate = "was_at" →
        ∀ tg, g.time = some tg → 1440 ≤ |tg - t|) →
      queryLocation facts person (some t) = none) ∧
    (∀ f, queryAction facts person (some t) = some f →
      ∃ tf, f.time = some tf ∧ |tf - t| < 1440) ∧
    ((∀ g ∈ facts, g.subject = person → g.predicate = "did" →
        ∀ tg, g.time = some tg → 1440 ≤ |tg - t|) →
      queryAction facts person (some t) = none) := by
  refine ⟨?_, ?_, ?_, ?_⟩
  · intro f h
    obtain ⟨_, _, _, tf, htf, hlt, _⟩ :=
      queryNearest_some_spec "was_at" facts person t f h
    exact ⟨tf, htf, hlt⟩
  · exact (queryNearest_none_iff "was_at" facts person t).mpr
  · intro f h
    obtain ⟨_, _, _, tf, htf, hlt, _⟩ :=
      queryNearest_some_spec "did" facts person t f h
    exact ⟨tf, htf, hlt⟩
  · exact (queryNearest_none_iff "did" facts person t).mpr

/-- A timed `"did"` fact more than 24 hours away from the query time. -/
def factFarAction : Fact :=
  { subject := "carol", predicate := "did", object := "reading",
    time := some 2000, certainty := 1 }

/-- Witness for C10: both queries return `none` on stores whose only
matching candidate is at least 24 hours away. -/
theorem query_nearest_24h_window_witness :
    queryLocation [factFar] "alice" (some 0) = none ∧
    queryAction [factFarAction] "carol" (some 0) = none :=
  ⟨(query_nearest_24h_window [factFar] "alice" 0).2.1 (by decide),
   (query_nearest_24h_window [factFarAction] "carol" 0).2.2.2 (by decide)⟩

/-! Section: C5: consistency check rejects co-located was_at facts -/

/-- C5.  When the store holds a `"was_at"` fact for a subject at one
location, `check_consistency` of a candidate `"was_at"` fact for the same
subject at a different location within 30 minutes returns `ok = false`
together with a violation string mentioning the temporal inconsistency. -/
theorem check_consistency_temporal_exclusivity (caseD : CaseData)
    (store : List Fact) (f cand : Fact) (hf : f ∈ store)
    (hsub : cand.subject = f.subject) (hfp : f.predicate = "was_at")
    (hcp : cand.predicate = "was_at") (tf tn : Int)
    (htf : f.time = some tf) (htn : cand.time = some tn)
    (hobj : cand.object ≠ f.object) (hdelta : |tf - tn| < 30) :
    (checkConsistency caseD store cand).1 = false ∧
    ∃ v ∈ (checkConsistency caseD store cand).2,
      ∃ rest, v = "Temporal inconsistency: " ++ rest := by
  have hmem : temporalViolationMsg cand f ∈ temporalViolations store cand := by
    unfold temporalViolations
    rw [htn]
    simp only [hcp, if_true]
    rw [List.mem_filterMap]
    refine ⟨f, hf, ?_⟩
    rw [htf]
    have hcond : f.subject = cand.subject ∧ f.predicate = "was_at" ∧
        f.object ≠ cand.object ∧ |tf - tn| < 30 :=
      ⟨hsub.symm, hfp, fun h => hobj h.symm, hdelta⟩
    show (if f.subject = cand.subject ∧ f.predicate = "was_at" ∧
        f.object ≠ cand.object ∧ |tf - tn| < 30 then
      some (temporalViolationMsg cand f) else none) =
      some (temporalViolationMsg cand f)
    rw [if_pos hcond]
  have hmem2 : temporalViolationMsg cand f ∈ (checkConsistency caseD store cand).2 := by
    unfold checkConsistency
    exact List.mem_append_left _ (List.mem_append_left _ hmem)
  refine ⟨?_, temporalViolationMsg cand f, hmem2,
    cand.subject ++ " cannot be at " ++ cand.object ++ " and " ++ f.object ++
      " at the same time", rfl⟩
  have hne : (checkConsistency caseD store cand).2 ≠ [] := by
    intro h
    rw [h] at hmem2
    exact absurd hmem2 (List.not_mem_nil _)
  have hfst : (checkConsistency caseD store cand).1 =
      (checkConsistency caseD store cand).2.isEmpty := rfl
  rw [hfst]
  cases hemp : (checkConsistency caseD store cand).2 with
  | nil => exact absurd hemp hne
  | cons a l => simp [hemp]

/-- Store fact for the C5 witness: Sam was in the kitchen at time 100. -/
def factKitchen : Fact :=
  { subject := "sam", predicate := "was_at", object := "kitchen",
    time := some 100, certainty := 1 }

/-- Candidate fact for the C5 witness: Sam in the study at the same time. -/
def factStudy : Fact :=
  { subject := "sam", predicate := "was_at", object := "study",
    time := some 100, certainty := 1 }

/-- Empty case data used where the murder record is irrelevant. -/
def caseEmpty : CaseData :=
  { timeline := [], murder := murderW, weapons := [],
    location_objects := [], weapon_objects := [], truth_matrix := [] }

/-- Witness for C5 at a concrete store and candidate. -/
theorem check_consistency_temporal_exclusivity_witness :
    (checkConsistency caseEmpty [factKitchen] factStudy).1 = false ∧
    ∃ v ∈ (checkConsistency caseEmpty [factKitchen] factStudy).2,
      ∃ rest, v = "Temporal inconsistency: " ++ rest :=
  check_consistency_temporal_exclusivity caseEmpty [factKitchen] factKitchen
    factStudy (by decide) rfl rfl rfl 100 100 rfl rfl (by decide) (by decide)

/-! Section: C6: construction-time validation -/

/-- The murder-event mismatch actually detected by
`_validate_constraints`: some event is flagged `is_crime` and the *first*
such event disagrees with the Murder record in actor, location or time. -/
def crimeMismatch (caseD : CaseData) : Prop :=
  match caseD.timeline.find? (fun e => e.is_crime) with
  | none => False
  | some e =>
    e.actor ≠ caseD.murder.murderer ∨ e.location ≠ caseD.murder.location ∨
      e.time ≠ caseD.murder.time

lemma pairViolations_eq_nil_iff (l : List Event) :
    pairViolations l = [] ↔
      l.Pairwise (fun a b => ¬ timelineConflict a b) := by
  induction l with
  | nil => simp [pairViolations]
  | cons e es ih =>
    simp only [pairViolations, List.append_eq_nil, List.pairwise_cons, ih,
      List.filterMap_eq_nil_iff]
    constructor
    · rintro ⟨h1, h2⟩
      refine ⟨fun e2 he2 hc => ?_, h2⟩
      have := h1 e2 he2
      rw [if_pos hc] at this
      cases this
    · rintro ⟨h1, h2⟩
      refine ⟨fun e2 he2 => ?_, h2⟩
      rw [if_neg (h1 e2 he2)]

lemma murderViolations_eq_nil_iff (caseD : CaseData) :
    murderViolations caseD = [] ↔ ¬ crimeMismatch caseD := by
  unfold murderViolations crimeMismatch
  cases h : caseD.timeline.find? (fun e => e.is_crime) with
  | none => simp
  | some e =>
    by_cases h1 : e.actor = caseD.murder.murderer <;>
      by_cases h2 : e.location = caseD.murder.location <;>
      by_cases h3 : e.time = caseD.murder.time <;>
      simp [h1, h2, h3]

/-- C6 (amended).  `KnowledgeBase` construction fails with an explicit
error exactly when the timeline has an actor at two different locations
within 30 minutes, or when some event is flagged as the crime and the
*first* such event's actor, location or time differs from the Murder
record's.  (A case with no `is_crime` event at all, or with extra crime
events beyond a matching first one, is not rejected.) -/
theorem kb_init_error_iff (caseD : CaseData) :
    (∃ msg, kbInit caseD = Except.error msg) ↔
      (¬ caseD.timeline.Pairwise (fun a b => ¬ timelineConflict a b) ∨
        crimeMismatch caseD) := by
  have h1 : (∃ msg, kbInit caseD = Except.error msg) ↔
      validateConstraints caseD ≠ [] := by
    unfold kbInit
    cases h : (validateConstraints caseD).isEmpty with
    | true =>
      simp only [h, if_true]
      constructor
      · rintro ⟨msg, hmsg⟩; cases hmsg
      · intro hne
        exact absurd (List.isEmpty_iff.mp h) hne
    | false =>
      simp only [h, if_false]
      constructor
      · intro _
        intro hnil
        rw [hnil] at h
        cases h
      · intro _
        exact ⟨_, rfl⟩
  rw [h1]
  unfold validateConstraints
  rw [Ne, List.append_eq_nil, not_and_or, ← Ne, ← Ne]
  constructor
  · rintro (h | h)
    · exact Or.inl (fun hp =>
        h ((pairViolations_eq_nil_iff caseD.timeline).mpr hp))
    · refine Or.inr ?_
      by_contra hm
      exact h ((murderViolations_eq_nil_iff caseD).mpr hm)
  · rintro (h | h)
    · exact Or.inl (fun hp =>
        h ((pairViolations_eq_nil_iff caseD.timeline).mp hp))
    · exact Or.inr (fun hm =>
        (murderViolations_eq_nil_iff caseD).mp hm h)

/-- A timeline event not flagged as the crime. -/
def eventReading : Event :=
  { id := "e1", time := 0, actor := "alice", action := "reading",
    location := "library", objects := [], is_crime := false }

/-- A case whose single timeline event is not flagged as the crime: the
"exactly one `is_crime` event matching the Murder record" invariant is
violated (there is no crime event at all). -/
def caseNoCrime : CaseData :=
  { timeline := [eventReading], murder := murderW, weapons := [],
    location_objects := [], weapon_objects := [], truth_matrix := [] }

/-- Counterexample to C6: a case with zero `is_crime` events violates the
construction invariant, yet `KnowledgeBase` initialization completes
without any error. -/
theorem kb_init_accepts_crimeless_case :
    (∃ facts, kbInit caseNoCrime = Except.ok facts) ∧
    caseNoCrime.timeline.countP (fun e => e.is_crime) = 0 := by
  refine ⟨⟨?_, ?_⟩, ?_⟩
  · exact caseNoCrime.truth_matrix ++ buildDerivedFacts caseNoCrime.timeline
  · rfl
  · rfl

/-- A crime event whose actor disagrees with `murderW`'s murderer. -/
def eventWrongActor : Event :=
  { id := "e1", time := 0, actor := "bob", action := "stabbing",
    location := "study", objects := [], is_crime := true }

/-- A case whose first (and only) crime event has the wrong actor. -/
def caseWrongActor : CaseData :=
  { timeline := [eventWrongActor], murder := murderW, weapons := [],
    location_objects := [], weapon_objects := [], truth_matrix := [] }

/-- Witness for C6 (amended) at a concrete case: the mismatching crime
event makes construction fail. -/
theorem kb_init_error_iff_witness :
    ∃ msg, kbInit caseWrongActor = Except.error msg :=
  (kb_init_error_iff caseWrongActor).mpr (Or.inr (by
    unfold crimeMismatch
    have h : caseWrongActor.timeline.find? (fun e => e.is_crime) =
        some eventWrongActor := rfl
    rw [h]
    exact Or.inl (by decide)))

/-! Section: C7: lie alternatives avoid the true location -/

/-- The element picked by the oracle draw is always one of the candidates
(whatever index `np.random.choice` returns). -/
lemma getD_mem_of_mem {α : Type} (l : List α) (n : ℕ) (d : α) (hd : d ∈ l) :
    l.getD n d ∈ l := by
  rw [List.getD_eq_getElem?_getD]
  cases hx : l[n]? with
  | none => simpa using hd
  | some x =>
    simp only [Option.getD_some]
    exact List.getElem?_mem hx

/-- C7.  Whenever the true fact being lied about is a `"was_at"` fact, the
alternative sampled by `_sample_alternative_location` never names the true
location. -/
theorem sample_alternative_location_ne_truth (caseD : CaseData)
    (facts : List Fact) (speaker : String) (t : Int) (tf : Fact)
    (htf : tf.predicate = "was_at") (draw : ℕ) (f : Fact)
    (h : sampleAlternativeLocation caseD facts speaker (some t) (some tf)
      draw = some f) :
    f.object ≠ tf.object := by
  unfold sampleAlternativeLocation at h
  simp only [htf, if_true] at h
  set pool := (caseD.location_objects.map (fun loc => loc.id)).filter
    (fun loc => loc ≠ tf.object) with hpool
  set scores := pool.map
    (fun loc => (loc, scoreLocationPlausibility caseD facts speaker loc))
    with hscores
  set sorted := scores.mergeSort (fun a b => decide (b.2 ≤ a.2)) with hsorted
  cases htop : sorted.take 3 with
  | nil =>
    rw [htop] at h
    cases h
  | cons p ps =>
    rw [htop] at h
    have hchosen : (p :: ps).getD (draw % (p :: ps).length) p ∈ p :: ps :=
      getD_mem_of_mem _ _ _ (by simp)
    have hmem : (p :: ps).getD (draw % (p :: ps).length) p ∈ scores := by
      have hsub : p :: ps ⊆ scores := by
        rw [← htop]
        intro x hx
        exact (List.mergeSort_perm scores _).subset (List.take_subset _ _ hx)
      exact hsub hchosen
    obtain ⟨loc, hloc, heq⟩ := List.mem_map.mp hmem
    have hlocne : loc ≠ tf.object := by
      have := List.mem_filter.mp hloc
      exact of_decide_eq_true this.2
    have hfobj : f.object = ((p :: ps).getD (draw % (p :: ps).length) p).1 := by
      cases h
      rfl
    rw [hfobj, ← heq]
    exact hlocne

/-- Concrete case with two locations for the C7 witness. -/
def caseTwoLocations : CaseData :=
  { timeline := [], murder := murderW, weapons := [],
    location_objects := [⟨"kitchen", []⟩, ⟨"garden", []⟩],
    weapon_objects := [], truth_matrix := [] }

/-- The true location fact for the C7 witness. -/
def truthKitchen : Fact :=
  { subject := "sam", predicate := "was_at", object := "kitchen",
    time := some 5, certainty := 1 }

/-- Witness for C7 at a concrete case: the sampled lie fact exists and its
location differs from the true one. -/
theorem sample_alternative_location_ne_truth_witness :
    ({ subject := "sam", predicate := "was_at", object := "garden",
       time := some 5, certainty := 7/10 } : Fact).object ≠
      truthKitchen.object := by
  have hres : sampleAlternativeLocation caseTwoLocations [] "sam" (some 5)
      (some truthKitchen) 0 =
      some { subject := "sam", predicate := "was_at", object := "garden",
             time := some 5, certainty := 7/10 } := by
    simp [sampleAlternativeLocation, truthKitchen, caseTwoLocations,
      scoreLocationPlausibility, getFactsAbout, List.mergeSort, murderW]
  exact sample_alternative_location_ne_truth caseTwoLocations [] "sam" 5
    truthKitchen rfl 0 _ hres

/-! Section: C8: unknown question types -/

/-- The mode selection of `decide` only ever selects Truth, Lie or Evasion (never Omission). -/
lemma decideModeScore_cases (lb t p r : ℚ) :
    (decideModeScore lb t p r).1 = TruthStatus.TRUE ∨
    (decideModeScore lb t p r).1 = TruthStatus.LIE ∨
    (decideModeScore lb t p r).1 = TruthStatus.EVASION := by
  simp only [decideModeScore]
  split_ifs <;> simp

/-- The Evasion placeholder fact produced in the C8 counterexample run. -/
def factEvadesBob : Fact :=
  { subject := "bob", predicate := "evades", object := "question",
    time := some 50, certainty := 8/10 }

/-- The planned answer produced in the C8 counterexample run. -/
def evasionAnswerBob : PlannedAnswer :=
  { fact := some factEvadesBob, mode := TruthStatus.EVASION,
    confidence := 3/40 }

/-- Counterexample to C8: with question type `"chitchat"` (unknown to the
engine), lying bias 0.3, classifier likelihood 0.5 and uniform draw 0.2,
the decided mode is Lie, the sampler yields nothing, and the planner
returns the Evasion placeholder — not a mode-Truth null response. -/
theorem plan_response_unknown_type_not_always_truth :
    planResponse caseEmpty [] "bob" (3/10) "chitchat"
        { time := none, location := none } (1/2) (1/5) (fun _ => 0) 50 =
      Except.ok evasionAnswerBob ∧
    evasionAnswerBob.mode = TruthStatus.EVASION ∧
    evasionAnswerBob.fact ≠ none ∧
    TruthStatus.EVASION ≠ TruthStatus.TRUE := by
  refine ⟨?_, rfl, by simp [evasionAnswerBob], by decide⟩
  have hq : kbQuery caseEmpty [] "bob" "chitchat"
      { time := none, location := none } = none := by
    simp [kbQuery]
  have hthreat : calcThreatLevel caseEmpty.murder "bob" "chitchat"
      { time := none, location := none } = 1/2 := by
    simp only [caseEmpty, calcThreatLevel, murderW]
    simp
    norm_num [min_def]
  have hprobs : decideProbs (3/10) (1/2) (1/2) = (7/40, 3/40, 3/4) := by
    simp only [decideProbs]
    norm_num
  have hms : decideModeScore (3/10) (1/2) (1/2) (1/5) =
      (TruthStatus.LIE, 3/40) := by
    simp only [decideModeScore, hprobs]
    norm_num
  have hsamp : ∀ d : ℕ, sampleAlternative caseEmpty [] "bob" "chitchat"
      { time := none, location := none } none d = none := by
    intro d
    simp [sampleAlternative]
  simp only [planResponse, hq, hthreat, hms, planLieResponse, hsamp,
    Except.map, evasionAnswerBob, planEvasionResponse, factEvadesBob]

/-- C8 (amended).  Unknown question types are accepted without error: the
truth lookup returns no fact, and the planned answer is either a truthful
null response (mode Truth, no fact) — when the deception model decides
Truth — or the Evasion placeholder (when it decides Lie, the sampler has no
branch for the unknown type and the turn is downgraded to Evasion; or when
it decides Evasion directly). -/
theorem plan_response_unknown_type (caseD : CaseData) (facts : List Fact)
    (speaker : String) (lb : ℚ) (intent : String) (params : QueryParams)
    (p rand : ℚ) (draws : ℕ → ℕ) (now : Int)
    (h : intent ∉ (["where_were_you", "who_saw_you", "what_did_you_do",
      "what_weapon", "alibi_check"] : List String)) :
    kbQuery caseD facts speaker intent params = none ∧
    ∃ pa, planResponse caseD facts speaker lb intent params p rand draws now =
        Except.ok pa ∧
      ((pa.mode = TruthStatus.TRUE ∧ pa.fact = none) ∨
        pa.mode = TruthStatus.EVASION) := by
  simp only [List.mem_cons, List.not_mem_nil, or_false, not_or] at h
  obtain ⟨h1, h2, h3, h4, h5⟩ := h
  have hq : kbQuery caseD facts speaker intent params = none := by
    unfold kbQuery
    rw [if_neg h1, if_neg h2, if_neg h3, if_neg h4, if_neg h5]
  have hsamp : ∀ (tfa : Option Fact) (d : ℕ),
      sampleAlternative caseD facts speaker intent params tfa d = none := by
    intro tfa d
    unfold sampleAlternative
    rw [if_neg h1, if_neg h3, if_neg h4]
  refine ⟨hq, ?_⟩
  rcases hms : decideModeScore lb
    (calcThreatLevel caseD.murder speaker intent params) p rand with ⟨mode, score⟩
  have hmode := decideModeScore_cases lb
    (calcThreatLevel caseD.murder speaker intent params) p rand
  rw [hms] at hmode
  simp only at hmode
  simp only [planResponse, hq, hms]
  rcases hmode with hm | hm | hm <;> subst hm
  · exact ⟨⟨none, TruthStatus.TRUE, score⟩,
      by simp [planTruthfulResponse, Except.map], Or.inl ⟨rfl, rfl⟩⟩
  · refine ⟨⟨(planEvasionResponse speaker now).fact, TruthStatus.EVASION,
      score⟩, ?_, Or.inr rfl⟩
    simp only [planLieResponse, hsamp, Except.map]
    rfl
  · exact ⟨⟨(planEvasionResponse speaker now).fact, TruthStatus.EVASION,
      score⟩, by simp [planEvasionResponse, Except.map], Or.inr rfl⟩

/-- Witness for C8 (amended) at a concrete unknown question type. -/
theorem plan_response_unknown_type_witness :
    kbQuery caseEmpty [] "bob" "smalltalk"
      { time := none, location := none } = none ∧
    ∃ pa, planResponse caseEmpty [] "bob" (3/10) "smalltalk"
        { time := none, location := none } (1/2) (99/100) (fun _ => 0) 50 =
        Except.ok pa ∧
      ((pa.mode = TruthStatus.TRUE ∧ pa.fact = none) ∨
        pa.mode = TruthStatus.EVASION) :=
  plan_response_unknown_type caseEmpty [] "bob" (3/10) "smalltalk"
    { time := none, location := none } (1/2) (99/100) (fun _ => 0) 50
    (by decide)

/-! Section: C9: claim creation is append-only and one-directional -/

lemma collectLinksStep_sub (speaker : String) (factP : Fact)
    (acc : List String × List String) (c : Claim) :
    (∀ cid ∈ (collectLinksStep speaker factP acc c).1,
      cid ∈ acc.1 ∨ (cid = c.id ∧ c.speaker ≠ speaker)) ∧
    (∀ cid ∈ (collectLinksStep speaker factP acc c).2,
      cid ∈ acc.2 ∨ (cid = c.id ∧ c.speaker ≠ speaker)) := by
  unfold collectLinksStep
  by_cases hsp : c.speaker ≠ speaker
  · rw [if_pos hsp]
    by_cases hcon : claimsContradict factP c.proposition = true
    · rw [if_pos hcon]
      refine ⟨fun cid hcid => ?_, fun cid hcid => Or.inl hcid⟩
      rcases List.mem_append.mp hcid with h | h
      · exact Or.inl h
      · exact Or.inr ⟨List.mem_singleton.mp h, hsp⟩
    · rw [if_neg hcon]
      by_cases hcor : claimsCorroborate factP c.proposition = true
      · rw [if_pos hcor]
        refine ⟨fun cid hcid => Or.inl hcid, fun cid hcid => ?_⟩
        rcases List.mem_append.mp hcid with h | h
        · exact Or.inl h
        · exact Or.inr ⟨List.mem_singleton.mp h, hsp⟩
      · rw [if_neg hcor]
        exact ⟨fun _ h => Or.inl h, fun _ h => Or.inl h⟩
  · rw [if_neg hsp]
    exact ⟨fun _ h => Or.inl h, fun _ h => Or.inl h⟩

lemma collectLinks_foldl_spec (speaker : String) (factP : Fact)
    (l : List Claim) :
    ∀ acc : List String × List String,
      (∀ cid ∈ (l.foldl (collectLinksStep speaker factP) acc).1,
        cid ∈ acc.1 ∨ ∃ c ∈ l, cid = c.id ∧ c.speaker ≠ speaker) ∧
      (∀ cid ∈ (l.foldl (collectLinksStep speaker factP) acc).2,
        cid ∈ acc.2 ∨ ∃ c ∈ l, cid = c.id ∧ c.speaker ≠ speaker) := by
  induction l with
  | nil => exact fun acc => ⟨fun _ h => Or.inl h, fun _ h => Or.inl h⟩
  | cons c l ih =>
    intro acc
    simp only [List.foldl_cons]
    constructor
    · intro cid hcid
      rcases (ih (collectLinksStep speaker factP acc c)).1 cid hcid with
        hmem | ⟨c', hc', heq, hsp⟩
      · rcases (collectLinksStep_sub speaker factP acc c).1 cid hmem with
          h | ⟨heq, hsp⟩
        · exact Or.inl h
        · exact Or.inr ⟨c, List.mem_cons_self c l, heq, hsp⟩
      · exact Or.inr ⟨c', List.mem_cons_of_mem c hc', heq, hsp⟩
    · intro cid hcid
      rcases (ih (collectLinksStep speaker factP acc c)).2 cid hcid with
        hmem | ⟨c', hc', heq, hsp⟩
      · rcases (collectLinksStep_sub speaker factP acc c).2 cid hmem with
          h | ⟨heq, hsp⟩
        · exact Or.inl h
        · exact Or.inr ⟨c, List.mem_cons_self c l, heq, hsp⟩
      · exact Or.inr ⟨c', List.mem_cons_of_mem c hc', heq, hsp⟩

/-- C9.  Creating a claim and appending it to the ledger leaves every
previously recorded claim unchanged (the old ledger is literally the
prefix of the new one), and the new claim's contradiction and corroboration
links point only at claims that existed at creation time and belong to
other speakers; no existing claim is modified to point at the new one. -/
theorem create_claim_append_only (ledger : List Claim) (speaker : String)
    (pa : PlannedAnswer) (now : Int) (newId : String) :
    (appendClaim ledger (createClaim ledger speaker pa now newId)).take
        ledger.length = ledger ∧
    (∀ cid ∈ (createClaim ledger speaker pa now newId).contradictions,
      ∃ old ∈ ledger, cid = old.id ∧ old.speaker ≠ speaker) ∧
    (∀ cid ∈ (createClaim ledger speaker pa now newId).corroborations,
      ∃ old ∈ ledger, cid = old.id ∧ old.speaker ≠ speaker) := by
  refine ⟨List.take_left ledger _, ?_, ?_⟩
  · intro cid hcid
    unfold createClaim at hcid
    cases hfact : pa.fact with
    | none =>
      rw [hfact] at hcid
      simp at hcid
    | some f =>
      rw [hfact] at hcid
      simp only at hcid
      rcases (collectLinks_foldl_spec speaker f ledger ([], [])).1 cid hcid
        with h | h
      · cases h
      · exact h
  · intro cid hcid
    unfold createClaim at hcid
    cases hfact : pa.fact with
    | none =>
      rw [hfact] at hcid
      simp at hcid
    | some f =>
      rw [hfact] at hcid
      simp only at hcid
      rcases (collectLinks_foldl_spec speaker f ledger ([], [])).2 cid hcid
        with h | h
      · cases h
      · exact h

/-- Alice's asserted fact: Carol was in the kitchen at time 10. -/
def factCarolKitchen : Fact :=
  { subject := "carol", predicate := "was_at", object := "kitchen",
    time := some 10, certainty := 1 }

/-- Bob's asserted fact: Carol was in the study at time 10. -/
def factCarolStudy : Fact :=
  { subject := "carol", predicate := "was_at", object := "study",
    time := some 10, certainty := 1 }

/-- A pre-existing claim by Alice about Carol's location. -/
def claimAlice : Claim :=
  { id := "c1", speaker := "alice", proposition := factCarolKitchen,
    time_of_claim := 0, truth_status := TruthStatus.TRUE, confidence := 1,
    justification := "", contradictions := [], corroborations := [] }

/-- Bob's planned answer contradicting Alice's claim. -/
def answerBob : PlannedAnswer :=
  { fact := some factCarolStudy, mode := TruthStatus.LIE, confidence := 1 }

/-- Witness for C9 at a concrete ledger: the contradiction link of Bob's
new claim refers to Alice's pre-existing claim. -/
theorem create_claim_append_only_witness :
    (appendClaim [claimAlice]
        (createClaim [claimAlice] "bob" answerBob 5 "c2")).take 1 =
      [claimAlice] ∧
    ∃ old ∈ [claimAlice], "c1" = old.id ∧ old.speaker ≠ "bob" :=
  ⟨(create_claim_append_only [claimAlice] "bob" answerBob 5 "c2").1,
   (create_claim_append_only [claimAlice] "bob" answerBob 5 "c2").2.1 "c1"
     (by simp [createClaim, collectLinks, collectLinksStep, claimsContradict,
       claimAlice, answerBob, factCarolKitchen, factCarolStudy])⟩

end Cluedo
